import Mathlib

/-!
Verification of the weather-prediction core of the `space-apps` repository
(`space-app-backend/weather-backend/app`).

The Python source is shallowly embedded below.  Floating-point arithmetic
is idealised as exact rational arithmetic (`ℚ`); Python's `round(x, 1)` is
modelled as exact round-half-to-even on rationals.  Random draws and the
remote archive are modelled as explicit parameters, so every definition is
executable.
-/

namespace SpaceApps

/-! ## `app/utils.py` -/

/-- The Rothfusz regression polynomial computed by `calculate_heat_index`
(`app/utils.py`, lines 38-44), as a function of the Fahrenheit temperature
and the relative humidity.  The source accumulates `hi` with `+=`. -/
def rothfusz_hi (temp_f humidity : ℚ) : ℚ :=
  -42.379 + 2.04901523 * temp_f + 10.14333127 * humidity
    + -0.22475541 * temp_f * humidity
    + -0.00683783 * temp_f * temp_f
    + -0.05481717 * humidity * humidity
    + 0.00122874 * temp_f * temp_f * humidity
    + 0.00085282 * temp_f * humidity * humidity
    + -0.00000199 * temp_f * temp_f * humidity * humidity

/-- `calculate_heat_index` from `app/utils.py` (lines 20-47): convert to
Fahrenheit, return the temperature unchanged when `temp_f < 80 or
humidity < 40`, otherwise apply the Rothfusz regression and convert the
result back to Celsius. -/
def calculate_heat_index (temp_c humidity : ℚ) : ℚ :=
  let temp_f := temp_c * 9 / 5 + 32
  if temp_f < 80 ∨ humidity < 40 then temp_c
  else (rothfusz_hi temp_f humidity - 32) * 5 / 9

/-! ## `app/predictor.py`: weather classification -/

/-- The six weather categories returned (as lowercase strings) by
`determine_weather_type` in `app/predictor.py`. -/
inductive WeatherKind
  | stormy
  | snowy
  | rainy
  | foggy
  | cloudy
  | sunny
deriving DecidableEq

/-- `determine_weather_type` from `app/predictor.py` (lines 14-39): a chain
of `if` statements, each returning immediately on its first match. -/
def determine_weather_type (temp humidity precip cloud_cover wind_speed : ℚ) :
    WeatherKind :=
  if precip > 10 ∧ wind_speed > 15 then .stormy
  else if temp < 2 ∧ precip > 2 then .snowy
  else if precip > 5 then .rainy
  else if humidity > 90 then .foggy
  else if cloud_cover > 60 then .cloudy
  else .sunny

/-! ## `app/predictor.py`: rain and snow probabilities (lines 144-165) -/

/-- `humidity_factor = max(0, min(70, (predicted_humidity - 30) * 1.0))`
(`app/predictor.py`, line 145). -/
def humidity_factor (humidity : ℚ) : ℚ :=
  max 0 (min 70 ((humidity - 30) * 1))

/-- The piecewise `precip_factor` of `app/predictor.py` (lines 148-153). -/
def precip_factor (precip : ℚ) : ℚ :=
  if precip < 5 then precip * 2
  else if precip < 15 then 10 + (precip - 5) * 1.5
  else min 30 (25 + (precip - 15) * 0.5)

/-- `rain_probability = min(100, max(0, humidity_factor + precip_factor))`
(`app/predictor.py`, line 155): the rain probability before the snow
adjustment. -/
def rain_probability (humidity precip : ℚ) : ℚ :=
  min 100 (max 0 (humidity_factor humidity + precip_factor precip))

/-- The snow adjustment and final clamps of `app/predictor.py`
(lines 157-165), returning the final pair
`(rain_probability, snow_probability)`.  When `predicted_temp < 5` the raw
snow portion `rain * (5 - temp) / 5` is subtracted from the rain
probability (clamped at 0) and itself clamped to `[0, 100]`; afterwards
both values are clamped to `[0, 100]` once more. -/
def rain_snow (humidity precip temp : ℚ) : ℚ × ℚ :=
  let rain0 := rain_probability humidity precip
  let pair :=
    if temp < 5 then
      let snow := rain0 * (5 - temp) / 5
      (max 0 (rain0 - snow), min 100 (max 0 snow))
    else (rain0, (0 : ℚ))
  (min 100 (max 0 pair.1), min 100 (max 0 pair.2))

/-! ## `app/predictor.py`: confidence score (lines 170-173) -/

/-- `temp_confidence = max(0, 100 - (stats["temperature"]["std"] * 3))`
(`app/predictor.py`, line 171). -/
def temp_confidence (temp_std : ℚ) : ℚ := max 0 (100 - temp_std * 3)

/-- `humid_confidence = max(0, 100 - (stats["humidity"]["std"] * 2))`
(`app/predictor.py`, line 172). -/
def humid_confidence (humidity_std : ℚ) : ℚ := max 0 (100 - humidity_std * 2)

/-- `confidence_score = (temp_confidence + humid_confidence) / 2`
(`app/predictor.py`, line 173). -/
def confidence_score (temp_std humidity_std : ℚ) : ℚ :=
  (temp_confidence temp_std + humid_confidence humidity_std) / 2

/-! ## Definitions following the spec's words (refinement comparisons) -/

/-- Modelled from the spec: `clamp(lo, hi, x)` as used in the spec's rain
probability and confidence formulas. -/
def clamp (lo hi x : ℚ) : ℚ := max lo (min hi x)

/-- Modelled from the spec: the piecewise precipitation factor exactly as
the claim words it — `2·p` for `p < 5`, `10 + 1.5·(p − 5)` for
`5 ≤ p < 15`, `min(30, 25 + 0.5·(p − 15))` for `p ≥ 15`. -/
def spec_precip_factor (p : ℚ) : ℚ :=
  if p < 5 then 2 * p
  else if p < 15 then 10 + 1.5 * (p - 5)
  else min 30 (25 + 0.5 * (p - 15))

/-- Modelled from the spec: rain probability as the claim words it —
`clamp(0,70,(humidity−30))` plus the piecewise precipitation factor, the
sum clamped to `[0, 100]`. -/
def spec_rain_probability (h p : ℚ) : ℚ :=
  clamp 0 100 (clamp 0 70 (h - 30) + spec_precip_factor p)

/-- Modelled from the spec: the 0.4/0.3/0.3 weighted confidence blend —
data-sufficiency `min(sample_size/years_requested, 1)`, temperature
consistency `max(0, 1 − std/10)`, humidity consistency `max(0, 1 − std/20)`,
expressed as a 0-100 percentage. -/
def spec_confidence_blend (sample_size years_requested : ℕ)
    (temp_std humidity_std : ℚ) : ℚ :=
  100 * (0.4 * min ((sample_size : ℚ) / (years_requested : ℚ)) 1
    + 0.3 * max 0 (1 - temp_std / 10)
    + 0.3 * max 0 (1 - humidity_std / 20))

/-- Modelled from the spec: the alternate simpler confidence variant as the
claim words it — `(100 − 3×temp_std)` averaged with `(100 − 2×humidity_std)`,
with no flooring of the individual terms. -/
def spec_confidence_alt (temp_std humidity_std : ℚ) : ℚ :=
  ((100 - 3 * temp_std) + (100 - 2 * humidity_std)) / 2

/-! ## Shared: the list of requested years

Both providers build `years = list(range(current_year - years_back,
current_year))` (`opendap_provider.py` line 200, `mock_provider.py`
line 39).  For `years_back ≤ 0` the Python range is empty. -/

/-- `list(range(current_year - years_back, current_year))`. -/
def yearsList (current_year years_back : ℤ) : List ℤ :=
  (List.range years_back.toNat).map
    (fun i : ℕ => current_year - years_back + (i : ℤ))

/-! ## `app/providers/mock_provider.py`

`MockProvider.fetch_historical_data` draws from NumPy's *global* random
generator, which it reseeds at entry (line 36).  The global generator is
embedded as an explicit state value threaded through the computation; the
particular distributions (`np.random.normal`, `np.random.uniform`,
`np.random.exponential`), the seeding function, and `np.sin` applied to
`2π·x` are abstract fields of a `MockEnv`, so the embedding is a function
of any such environment.  Python's float `%` and `round(x, 1)` are
modelled exactly on `ℚ`. -/

/-- Python's `%` on reals: `x - y * ⌊x / y⌋` (sign follows the divisor). -/
def pymod (x y : ℚ) : ℚ := x - y * ⌊x / y⌋

/-- Round-half-to-even to an integer, Python's `round` on an exact value. -/
def roundHalfEven (x : ℚ) : ℤ :=
  if x - ⌊x⌋ < 1/2 then ⌊x⌋
  else if x - ⌊x⌋ > 1/2 then ⌊x⌋ + 1
  else if ⌊x⌋ % 2 = 0 then ⌊x⌋ else ⌊x⌋ + 1

/-- Python's `round(x, 1)`, idealised to exact arithmetic. -/
def pyround1 (x : ℚ) : ℚ := (roundHalfEven (x * 10) : ℚ) / 10

/-- The abstract random/analytic environment of `MockProvider`:
the state of NumPy's global generator, `np.random.seed`, the three
distribution samplers (each returning a value and the successor state),
and `x ↦ np.sin(2·π·x)` as an abstract pure function. -/
structure MockEnv where
  State : Type
  seed : ℕ → State
  normal : ℚ → ℚ → State → ℚ × State
  uniform : ℚ → ℚ → State → ℚ × State
  exponential : ℚ → State → ℚ × State
  sin2pi : ℚ → ℚ

/-- One row of the `DataFrame` built by `MockProvider.fetch_historical_data`
(`mock_provider.py`, lines 138-150). -/
structure MockRecord where
  year : ℤ
  temperatureC : ℚ
  humidity : ℚ
  windSpeed : ℚ
  windDirection : ℚ
  precipitation : ℚ
  cloudCover : ℚ
  pressure : ℚ
  dewPoint : ℚ
  uvIndex : ℚ
  feelsLike : ℚ

/-- The seed computed at `mock_provider.py` line 36:
`int(abs(lat * 1000 + lon * 100 + target_month * 10 + target_day))`.
Python's `int` truncates toward zero; applied after `abs` this is the floor
of the absolute value. -/
def seedOf (lat lon : ℚ) (target_month target_day : ℤ) : ℕ :=
  (⌊|lat * 1000 + lon * 100 + (target_month : ℚ) * 10 + (target_day : ℚ)|⌋).toNat

/-- The loop body of `MockProvider.fetch_historical_data`
(`mock_provider.py`, lines 67-150): produce the record of one year,
threading the global generator state.  `seasonal`, `base_temp`,
`temp_variation` and `abs_lat` are the loop-invariant values computed
before the loop. -/
def mockYear (env : MockEnv) (lon seasonal base_temp temp_variation abs_lat : ℚ)
    (year : ℤ) (s : env.State) : MockRecord × env.State :=
  let p1 := env.normal 0 1.5 s
  let year_anomaly := p1.1
  let p2 := env.normal 0 2 p1.2
  let temp := base_temp + seasonal * temp_variation + year_anomaly + p2.1
  let humidity_base := 70 - (temp - 15) * 1.5
  let humidity_base :=
    if |lon| > 150 ∨ |lon| < 30 then humidity_base + 10 else humidity_base
  let p3 := env.normal 0 8 p2.2
  let humidity := max 20 (min 100 (humidity_base + p3.1))
  let wind_base := 5 + |abs_lat - 45| * 0.1
  let wind_base := if |lon| > 150 ∨ |lon| < 30 then wind_base + 3 else wind_base
  let p4 := env.normal 0 3 p3.2
  let wind_speed := max 0 (wind_base + p4.1)
  let p5 :=
    if 30 < abs_lat ∧ abs_lat < 60 then
      let q := env.normal 270 45 p4.2
      (pymod q.1 360, q.2)
    else env.uniform 0 360 p4.2
  let wind_dir := p5.1
  let precip_rate : ℚ :=
    if humidity > 70 then 2.5 else if humidity > 50 then 1 else 0.3
  let precip_rate :=
    if abs_lat < 35 ∧ seasonal > 0 then precip_rate * 1.8
    else if 35 < abs_lat ∧ abs_lat < 45 ∧ seasonal < 0 then precip_rate * 1.5
    else precip_rate
  let p6 := env.exponential precip_rate p5.2
  let precipitation := max 0 p6.1
  let p7 := env.normal 0 15 p6.2
  let cloud_cover := min 100 (max 0 (humidity * 0.8 + p7.1))
  let p8 := env.normal 0 10 p7.2
  let pressure := 1013 - abs_lat * 0.5 + p8.1
  let dew_point := temp - (100 - humidity) / 5
  let uv_base := 11 - abs_lat / 9
  let uv_seasonal := seasonal * 2
  let uv_cloud_reduction := cloud_cover / 100 * 5
  let uv_index := max 0 (min 11 (uv_base + uv_seasonal - uv_cloud_reduction))
  let feels_like :=
    if temp < 10 ∧ wind_speed > 5 then temp - wind_speed * 0.5
    else if temp > 27 ∧ humidity > 40 then temp + (humidity - 40) * 0.2
    else temp
  ({ year := year
     temperatureC := pyround1 temp
     humidity := pyround1 humidity
     windSpeed := pyround1 wind_speed
     windDirection := pyround1 wind_dir
     precipitation := pyround1 precipitation
     cloudCover := pyround1 cloud_cover
     pressure := pyround1 pressure
     dewPoint := pyround1 dew_point
     uvIndex := pyround1 uv_index
     feelsLike := pyround1 feels_like }, p8.2)

/-- Run a state-threading year body over a list of years, collecting the
records (the `for year in years` loop). -/
def mockYears (env : MockEnv) (f : ℤ → env.State → MockRecord × env.State) :
    List ℤ → env.State → List MockRecord × env.State
  | [], s => ([], s)
  | y :: ys, s =>
    let p := f y s
    let q := mockYears env f ys p.2
    (p.1 :: q.1, q.2)

/-- `MockProvider.fetch_historical_data` (`mock_provider.py`, lines 17-152).
`s0` is the state of the global NumPy generator when the method is entered;
line 36 overwrites it with `np.random.seed(seedOf ...)` before any draw.
`current_year` is `datetime.now().year`.  Returns the rows of the
`DataFrame` together with the final generator state. -/
def mock_fetch_historical_data (env : MockEnv) (lat lon : ℚ)
    (target_month target_day : ℤ) (years_back current_year : ℤ)
    (_s0 : env.State) : List MockRecord × env.State :=
  let s := env.seed (seedOf lat lon target_month target_day)
  let years := yearsList current_year years_back
  let is_northern := lat ≥ 0
  let effective_month : ℤ :=
    if is_northern then target_month
    else if (target_month + 6) % 12 = 0 then 12 else (target_month + 6) % 12
  let abs_lat := |lat|
  let zone : ℚ × ℚ :=
    if abs_lat < 23.5 then (25 + (23.5 - abs_lat) * 0.3, 5)
    else if abs_lat < 35 then (20 + (35 - abs_lat) * 0.4, 8)
    else if abs_lat < 50 then (12 + (50 - abs_lat) * 0.5, 12)
    else if abs_lat < 66.5 then (5 + (66.5 - abs_lat) * 0.3, 15)
    else (-10, 20)
  let seasonal := env.sin2pi (((effective_month : ℚ) - 3) / 12)
  mockYears env (mockYear env lon seasonal zone.1 zone.2 abs_lat) years s

/-- A trivial concrete environment, used to instantiate the universally
quantified theorems below at a checkable input. -/
def unitEnv : MockEnv where
  State := Unit
  seed := fun _ => ()
  normal := fun m _ s => (m, s)
  uniform := fun a _ s => (a, s)
  exponential := fun _ s => (0, s)
  sin2pi := fun _ => 0

/-! ## `app/providers/opendap_provider.py`: the fetch orchestration

`OpendapProvider.fetch_historical_data` (lines 176-299) submits one
`fetch_year` task per requested year to a `ThreadPoolExecutor` and collects
results with `as_completed`.  The embedding abstracts one task's
interaction with the outside world into a `TaskRun` value:

* `_get_cached_data` (lines 132-155) returns a dict on a hit and `None`
  both on a miss and on a read error (its `except` returns `None`), so a
  cache read is `hit`, `miss`, or `readError`;
* `_fetch_merra2_day` (lines 300-470) catches every exception internally
  and returns `None` on any failure, so a remote call is `ok` or `failed`;
* any exception escaping the body of `fetch_year` (e.g. an invalid
  `datetime(year, month, day)`) hits its `except` (lines 267-270), which
  returns `_get_climatology_estimate` — constructor `raises`.

Record bodies are opaque (`α`): the orchestration never inspects them.
Every produced row carries the requested year: the cached and remote
branches build their dict with `"year": int(year)` (lines 219, 248) and
`_get_climatology_estimate` sets `"year": year` (line 524), so a record is
`⟨year, body⟩`.  `_get_climatology_estimate` itself draws from the global
generator; it is abstracted as `clim : ℤ → α` giving the body produced for
a year.  The `as_completed` completion order is an explicit list
parameter.  The whole body sits in a `try` whose handler returns
`_get_fallback_data` (lines 296-299, 537-549): this fires when `years` is
empty (`years[0]` raises `IndexError`) or when `data` is empty (the
`raise ValueError` at line 292), and `_get_fallback_data` maps
`_get_climatology_estimate` over the same `years` list. -/

/-- Result of the cache read at the start of a `fetch_year` task. -/
inductive CacheRead (α : Type)
  | hit (body : α)
  | miss
  | readError
deriving DecidableEq

/-- Result of `_fetch_merra2_day`: a data dict, or `None` on any failure
(the function catches every exception internally). -/
inductive RemoteResult (α : Type)
  | ok (body : α)
  | failed
deriving DecidableEq

/-- One `fetch_year` task's interaction with the world: either its body
runs (with the given cache and remote outcomes), or it raises and its
`except` clause substitutes the climatology estimate. -/
inductive TaskRun (α : Type)
  | runs (cache : CacheRead α) (remote : RemoteResult α)
  | raises
deriving DecidableEq

/-- A row of the orchestrator's `DataFrame`: the requested year plus an
opaque body. -/
structure YearRecord (α : Type) where
  year : ℤ
  body : α
deriving DecidableEq

/-- The `fetch_year` closure of `fetch_historical_data`
(`opendap_provider.py`, lines 208-270): return the cached record on a hit
(a cache read error falls through like a miss), else the remote record on
success, else `None` (the year yields no row); if the body raises, return
the climatology estimate for the year. -/
def fetch_year (clim : ℤ → α) (year : ℤ) : TaskRun α → Option (YearRecord α)
  | .runs (.hit b) _ => some ⟨year, b⟩
  | .runs .miss (.ok b) => some ⟨year, b⟩
  | .runs .readError (.ok b) => some ⟨year, b⟩
  | .runs .miss .failed => none
  | .runs .readError .failed => none
  | .raises => some ⟨year, clim year⟩

/-- `OpendapProvider.fetch_historical_data` (lines 176-299).  `run` gives
each year's task outcome and `completion_order` is the order in which
`as_completed` yields the futures (a permutation of the years when every
task finishes in time).  Results are appended in completion order
(line 284); `None` results are skipped (`if result:` at line 283).  The
outer exception handler degrades to `_get_fallback_data` when `years` is
empty or no year produced a row. -/
def opendap_fetch_historical_data (clim : ℤ → α)
    (current_year years_back : ℤ) (run : ℤ → TaskRun α)
    (completion_order : List ℤ) : List (YearRecord α) :=
  if (yearsList current_year years_back).isEmpty then []
  else if (completion_order.filterMap
      (fun y => fetch_year clim y (run y))).isEmpty
    then (yearsList current_year years_back).map (fun y => ⟨y, clim y⟩)
  else completion_order.filterMap fun y => fetch_year clim y (run y)

/-- The empty-sample guard of `predict_for_point` (`predictor.py`,
lines 52-61) applied to the orchestrator's result: the only point in the
pipeline that surfaces an error (`raise ValueError` when the `DataFrame`
is empty). -/
def fetch_result (clim : ℤ → α) (current_year years_back : ℤ)
    (run : ℤ → TaskRun α) (completion_order : List ℤ) :
    Except Unit (List (YearRecord α)) :=
  if (opendap_fetch_historical_data clim current_year years_back run
      completion_order).isEmpty then .error ()
  else .ok (opendap_fetch_historical_data clim current_year years_back run
    completion_order)

/-! ## Helper lemmas -/

/-- `max lo (min hi x)` and `min hi (max lo x)` agree for `0`/`100`. -/
lemma clamp_zero_hundred (x : ℚ) : clamp 0 100 x = min 100 (max 0 x) := by
  unfold clamp
  rw [max_min_distrib_left]
  norm_num

/-- The source's `humidity_factor` is the spec's `clamp(0,70,(humidity−30))`. -/
lemma humidity_factor_eq_clamp (h : ℚ) : humidity_factor h = clamp 0 70 (h - 30) := by
  unfold humidity_factor clamp
  rw [mul_one]

/-- The source's piecewise `precip_factor` matches the spec's wording. -/
lemma precip_factor_eq_spec (p : ℚ) : precip_factor p = spec_precip_factor p := by
  unfold precip_factor spec_precip_factor
  split_ifs with h1 h2
  · ring
  · ring
  · congr 1
    ring

lemma rain_probability_nonneg (h p : ℚ) : 0 ≤ rain_probability h p :=
  le_min (by norm_num) (le_max_left 0 _)

lemma rain_probability_le_hundred (h p : ℚ) : rain_probability h p ≤ 100 :=
  min_le_left _ _

/-! ## Claim theorems: the statistical prediction engine -/

/-- C3: `determine_weather_type` is a strict priority chain — the first
matching rule of stormy/snowy/rainy/foggy/cloudy decides, else sunny; in
particular `(temp, humidity, precip, cloud, wind) = (1, 50, 12, 50, 16)`
is stormy even though `temp < 2` and `precip > 2`, and `(1, 50, 3, 50, 5)`
is snowy. -/
theorem c3_weather_priority_chain :
    (∀ t h p c w : ℚ, p > 10 → w > 15 →
      determine_weather_type t h p c w = .stormy) ∧
    (∀ t h p c w : ℚ, ¬(p > 10 ∧ w > 15) → t < 2 → p > 2 →
      determine_weather_type t h p c w = .snowy) ∧
    (∀ t h p c w : ℚ, ¬(p > 10 ∧ w > 15) → ¬(t < 2 ∧ p > 2) → p > 5 →
      determine_weather_type t h p c w = .rainy) ∧
    (∀ t h p c w : ℚ, ¬(p > 10 ∧ w > 15) → ¬(t < 2 ∧ p > 2) → ¬(p > 5) →
      h > 90 → determine_weather_type t h p c w = .foggy) ∧
    (∀ t h p c w : ℚ, ¬(p > 10 ∧ w > 15) → ¬(t < 2 ∧ p > 2) → ¬(p > 5) →
      ¬(h > 90) → c > 60 → determine_weather_type t h p c w = .cloudy) ∧
    (∀ t h p c w : ℚ, ¬(p > 10 ∧ w > 15) → ¬(t < 2 ∧ p > 2) → ¬(p > 5) →
      ¬(h > 90) → ¬(c > 60) → determine_weather_type t h p c w = .sunny) ∧
    determine_weather_type 1 50 12 50 16 = .stormy ∧
    determine_weather_type 1 50 3 50 5 = .snowy := by
  refine ⟨?_, ?_, ?_, ?_, ?_, ?_, by decide, by decide⟩ <;>
    · intro t h p c w
      intros
      unfold determine_weather_type
      split_ifs <;> first
        | rfl
        | (exfalso; tauto)

/-- Witness for C3: the stormy rule applied at a concrete input. -/
theorem c3_weather_priority_chain_witness :
    determine_weather_type 20 50 11 0 16 = .stormy :=
  c3_weather_priority_chain.1 20 50 11 0 16 (by norm_num) (by norm_num)

/-- C5: the pre-snow rain probability equals
`clamp(0,100, clamp(0,70,(humidity−30)) + precip_factor)` with the
piecewise precipitation factor exactly as the claim states it (each branch
with its stated range), and `humidity = 80, precip = 0` yields 50. -/
theorem c5_rain_probability_formula :
    (∀ h p : ℚ, rain_probability h p = spec_rain_probability h p) ∧
    (∀ p : ℚ, 0 ≤ p →
      (p < 5 → precip_factor p = 2 * p ∧
        0 ≤ precip_factor p ∧ precip_factor p ≤ 10) ∧
      (5 ≤ p → p < 15 → precip_factor p = 10 + 1.5 * (p - 5) ∧
        10 ≤ precip_factor p ∧ precip_factor p ≤ 25) ∧
      (15 ≤ p → precip_factor p = min 30 (25 + 0.5 * (p - 15)) ∧
        25 ≤ precip_factor p ∧ precip_factor p ≤ 30)) ∧
    rain_probability 80 0 = 50 := by
  refine ⟨fun h p => ?_, fun p hp => ⟨?_, ?_, ?_⟩,
    by norm_num [rain_probability, humidity_factor, precip_factor,
      min_def, max_def]⟩
  · unfold spec_rain_probability
    rw [clamp_zero_hundred, ← humidity_factor_eq_clamp, ← precip_factor_eq_spec]
    rfl
  · intro h5
    rw [precip_factor_eq_spec]
    unfold spec_precip_factor
    rw [if_pos h5]
    refine ⟨rfl, by linarith, by linarith⟩
  · intro h5 h15
    rw [precip_factor_eq_spec]
    unfold spec_precip_factor
    rw [if_neg (by linarith), if_pos h15]
    refine ⟨rfl, by linarith, by linarith⟩
  · intro h15
    rw [precip_factor_eq_spec]
    unfold spec_precip_factor
    rw [if_neg (by linarith), if_neg (by linarith)]
    exact ⟨rfl, le_min (by norm_num) (by linarith), min_le_left _ _⟩

/-- Witness for C5: the piecewise factor evaluated in each branch at a
concrete precipitation. -/
theorem c5_rain_probability_formula_witness :
    rain_probability 80 0 = spec_rain_probability 80 0 ∧
    precip_factor 2 = 2 * 2 ∧ precip_factor 8 = 10 + 1.5 * (8 - 5) ∧
    precip_factor 20 = min 30 (25 + 0.5 * (20 - 15)) :=
  ⟨c5_rain_probability_formula.1 80 0,
   ((c5_rain_probability_formula.2.1 2 (by norm_num)).1 (by norm_num)).1,
   (((c5_rain_probability_formula.2.1 8 (by norm_num)).2.1 (by norm_num))
     (by norm_num)).1,
   ((c5_rain_probability_formula.2.1 20 (by norm_num)).2.2 (by norm_num)).1⟩

/-- C6: the snow adjustment — snow is 0 when `temp ≥ 5`; when `temp < 5`
snow equals the pre-snow rain probability times `(5 − temp)/5` clamped to
`[0,100]` and the raw snow portion is subtracted (floored at 0) from the
rain probability; the returned pair lies in `[0,100] × [0,100]` with
`rain + snow ≤ 100`. -/
theorem c6_snow_adjustment :
    ∀ h p t : ℚ,
      (5 ≤ t → (rain_snow h p t).2 = 0) ∧
      (t < 5 →
        (rain_snow h p t).2 =
          min 100 (max 0 (rain_probability h p * (5 - t) / 5)) ∧
        (rain_snow h p t).1 =
          max 0 (rain_probability h p - rain_probability h p * (5 - t) / 5)) ∧
      0 ≤ (rain_snow h p t).1 ∧ (rain_snow h p t).1 ≤ 100 ∧
      0 ≤ (rain_snow h p t).2 ∧ (rain_snow h p t).2 ≤ 100 ∧
      (rain_snow h p t).1 + (rain_snow h p t).2 ≤ 100 := by
  intro h p t
  have hr0 : 0 ≤ rain_probability h p := rain_probability_nonneg h p
  have hr1 : rain_probability h p ≤ 100 := rain_probability_le_hundred h p
  simp only [rain_snow]
  by_cases ht : t < 5
  · rw [if_pos ht]
    have hs0 : 0 ≤ rain_probability h p * (5 - t) / 5 :=
      div_nonneg (mul_nonneg hr0 (by linarith)) (by norm_num)
    set r0 := rain_probability h p with hr0def
    set s := r0 * (5 - t) / 5 with hsdef
    simp only
    have e1 : max 0 (max 0 (r0 - s)) = max 0 (r0 - s) := by
      rw [← max_assoc, max_self]
    have e2 : max 0 (r0 - s) ≤ 100 :=
      max_le (by norm_num) (by linarith)
    have e3 : max 0 (min 100 (max 0 s)) = min 100 s := by
      rw [max_eq_right hs0, max_eq_right (le_min (by norm_num) hs0)]
    have e4 : min 100 (min 100 s) = min 100 s := by
      rw [← min_assoc, min_self]
    rw [e1, min_eq_right e2, e3, e4, max_eq_right hs0]
    refine ⟨fun h5 => absurd ht (not_lt.2 h5), fun _ => ⟨rfl, rfl⟩,
      le_max_left _ _, e2, le_min (by norm_num) hs0, min_le_left _ _, ?_⟩
    rcases le_total s r0 with hc | hc
    · have : max 0 (r0 - s) = r0 - s := max_eq_right (by linarith)
      have : max 0 (r0 - s) + min 100 s ≤ (r0 - s) + s := by
        rw [this]
        exact add_le_add_left (min_le_right _ _) _
      linarith
    · have : max 0 (r0 - s) = 0 := max_eq_left (by linarith)
      rw [this, zero_add]
      exact min_le_left _ _
  · rw [if_neg ht]
    have e0 : min (100 : ℚ) (max 0 0) = 0 := by norm_num
    have e6 : min (100 : ℚ) (max 0 (rain_probability h p)) =
        rain_probability h p := by
      rw [max_eq_right hr0, min_eq_right hr1]
    refine ⟨fun _ => e0, fun h5 => absurd h5 ht, ?_, ?_, ?_, ?_, ?_⟩
    · show 0 ≤ min (100 : ℚ) (max 0 (rain_probability h p))
      rw [e6]
      exact hr0
    · show min (100 : ℚ) (max 0 (rain_probability h p)) ≤ 100
      exact min_le_left _ _
    · show 0 ≤ min (100 : ℚ) (max 0 (0 : ℚ))
      rw [e0]
    · show min (100 : ℚ) (max 0 (0 : ℚ)) ≤ 100
      rw [e0]
      norm_num
    · show min (100 : ℚ) (max 0 (rain_probability h p)) +
        min (100 : ℚ) (max 0 (0 : ℚ)) ≤ 100
      rw [e0, e6, add_zero]
      exact hr1

/-- Witness for C6: the snow branch evaluated at
`humidity = 80, precip = 0, temp = −2` (and the no-snow branch at
`temp = 7`). -/
theorem c6_snow_adjustment_witness :
    (rain_snow 80 0 (-2)).2 =
      min 100 (max 0 (rain_probability 80 0 * (5 - (-2)) / 5)) ∧
    (rain_snow 80 0 7).2 = 0 :=
  ⟨((c6_snow_adjustment 80 0 (-2)).2.1 (by norm_num)).1,
   (c6_snow_adjustment 80 0 7).1 (by norm_num)⟩

/-- C7: `calculate_heat_index` returns the temperature unmodified whenever
`humidity < 40` or the Fahrenheit conversion is below 80, and otherwise
applies the Rothfusz regression in Fahrenheit and converts back to
Celsius. -/
theorem c7_heat_index :
    ∀ t h : ℚ,
      (h < 40 ∨ t * 9 / 5 + 32 < 80 → calculate_heat_index t h = t) ∧
      (40 ≤ h → 80 ≤ t * 9 / 5 + 32 →
        calculate_heat_index t h =
          (rothfusz_hi (t * 9 / 5 + 32) h - 32) * 5 / 9) := by
  intro t h
  unfold calculate_heat_index
  constructor
  · intro hc
    rw [if_pos hc.symm]
  · intro h1 h2
    rw [if_neg (not_or.2 ⟨not_lt.2 h2, not_lt.2 h1⟩)]

/-- Witness for C7: both branches at concrete inputs — `t = 10, h = 80`
(50°F, below threshold) and `t = 30, h = 50` (86°F, regression). -/
theorem c7_heat_index_witness :
    calculate_heat_index 10 80 = 10 ∧
    calculate_heat_index 30 50 =
      (rothfusz_hi (30 * 9 / 5 + 32) 50 - 32) * 5 / 9 :=
  ⟨(c7_heat_index 10 80).1 (Or.inr (by norm_num)),
   (c7_heat_index 30 50).2 (by norm_num) (by norm_num)⟩

/-- C4 (as stated) is false: at `temp_std = 50, humidity_std = 40` (a
10-of-10-years sample) the code's confidence is 10, while the spec's
weighted blend gives 40 and the literal unfloored alternate variant gives
−15 — the code matches neither documented formula verbatim. -/
theorem c4_counterexample :
    ¬(confidence_score 50 40 = spec_confidence_blend 10 10 50 40 ∨
      confidence_score 50 40 = spec_confidence_alt 50 40) := by
  unfold confidence_score temp_confidence humid_confidence
    spec_confidence_blend spec_confidence_alt
  norm_num

/-- C4 amended: the code computes the alternate simpler confidence variant
with each term floored at zero — the average of `max(0, 100 − 3·temp_std)`
and `max(0, 100 − 2·humidity_std)`; the result always lies in `[0, 100]`,
and it coincides with the literal alternate variant whenever neither
penalty exceeds 100. -/
theorem c4_amended_confidence :
    ∀ temp_std humidity_std : ℚ, 0 ≤ temp_std → 0 ≤ humidity_std →
      (confidence_score temp_std humidity_std =
        (max 0 (100 - 3 * temp_std) + max 0 (100 - 2 * humidity_std)) / 2 ∧
       0 ≤ confidence_score temp_std humidity_std ∧
       confidence_score temp_std humidity_std ≤ 100) ∧
      (temp_std * 3 ≤ 100 → humidity_std * 2 ≤ 100 →
        confidence_score temp_std humidity_std =
          spec_confidence_alt temp_std humidity_std) := by
  intro ts hs hts hhs
  unfold confidence_score temp_confidence humid_confidence spec_confidence_alt
  have b1 : max 0 (100 - ts * 3) ≤ 100 := max_le (by norm_num) (by linarith)
  have b2 : max 0 (100 - hs * 2) ≤ 100 := max_le (by norm_num) (by linarith)
  refine ⟨⟨by rw [show (100 : ℚ) - 3 * ts = 100 - ts * 3 by ring,
      show (100 : ℚ) - 2 * hs = 100 - hs * 2 by ring],
    by positivity, by linarith⟩, fun h3 h2 => ?_⟩
  rw [max_eq_right (by linarith), max_eq_right (by linarith)]
  ring

/-- Witness for C4 amended: a concrete low-variance sample
(`temp_std = 2, humidity_std = 5`). -/
theorem c4_amended_confidence_witness :
    confidence_score 2 5 = spec_confidence_alt 2 5 ∧
    0 ≤ confidence_score 2 5 ∧ confidence_score 2 5 ≤ 100 := by
  have h := c4_amended_confidence 2 5 (by norm_num) (by norm_num)
  exact ⟨h.2 (by norm_num) (by norm_num), h.1.2.1, h.1.2.2⟩

/-! ## Helper lemmas for the fetch orchestration -/

lemma yearsList_length (cy yb : ℤ) : (yearsList cy yb).length = yb.toNat := by
  unfold yearsList
  rw [List.length_map, List.length_range]

lemma mem_yearsList {cy yb y : ℤ} :
    y ∈ yearsList cy yb ↔ cy - yb ≤ y ∧ y < cy := by
  unfold yearsList
  simp only [List.mem_map, List.mem_range]
  constructor
  · rintro ⟨i, hi, rfl⟩
    omega
  · rintro ⟨h1, h2⟩
    exact ⟨(y - (cy - yb)).toNat, by omega, by omega⟩

lemma yearsList_eq_nil {cy yb : ℤ} : yearsList cy yb = [] ↔ yb ≤ 0 := by
  rw [← List.length_eq_zero, yearsList_length]
  omega

lemma yearsList_pairwise (cy yb : ℤ) :
    (yearsList cy yb).Pairwise (fun a b => a < b) := by
  unfold yearsList
  exact List.Pairwise.map _ (fun a b hab => by omega)
    (List.pairwise_lt_range _)

/-- Every record produced by a `fetch_year` task carries the requested
year. -/
lemma fetch_year_year {α : Type} (clim : ℤ → α) (y : ℤ) (tr : TaskRun α)
    (r : YearRecord α) (h : fetch_year clim y tr = some r) : r.year = y := by
  cases tr with
  | raises =>
    injection h with h'
    rw [← h']
  | runs c rm =>
    cases c with
    | hit b =>
      injection h with h'
      rw [← h']
    | miss =>
      cases rm with
      | ok b =>
        injection h with h'
        rw [← h']
      | failed => exact Option.noConfusion h
    | readError =>
      cases rm with
      | ok b =>
        injection h with h'
        rw [← h']
      | failed => exact Option.noConfusion h

lemma map_year_filterMap_sublist {α : Type} (clim : ℤ → α)
    (run : ℤ → TaskRun α) :
    ∀ l : List ℤ,
      ((l.filterMap fun y => fetch_year clim y (run y)).map
        YearRecord.year).Sublist l := by
  intro l
  induction l with
  | nil => simp
  | cons y ys ih =>
    rw [List.filterMap_cons]
    cases hfy : fetch_year clim y (run y) with
    | none => exact ih.cons y
    | some r =>
      rw [List.map_cons, fetch_year_year clim y (run y) r hfy]
      exact ih.cons₂ y

lemma filterMap_length_all_some {α β : Type} (f : α → Option β) :
    ∀ l : List α, (∀ a ∈ l, (f a).isSome) →
      (l.filterMap f).length = l.length := by
  intro l
  induction l with
  | nil => simp
  | cons a as ih =>
    intro h
    rw [List.filterMap_cons]
    cases hfa : f a with
    | none =>
      have := h a (List.mem_cons_self a as)
      rw [hfa] at this
      exact absurd this (by simp)
    | some b =>
      simp only [List.length_cons]
      rw [ih (fun x hx => h x (List.mem_cons_of_mem _ hx))]

lemma isEmpty_of_eq_nil {β : Type} {l : List β} (h : l = []) :
    l.isEmpty = true := by
  simpa [List.isEmpty_iff] using h

lemma not_isEmpty_of_ne_nil {β : Type} {l : List β} (h : l ≠ []) :
    ¬l.isEmpty = true := by
  simpa [List.isEmpty_iff] using h

lemma opendap_result_empty {α : Type} (clim : ℤ → α) (cy yb : ℤ)
    (run : ℤ → TaskRun α) (order : List ℤ) (hy : yearsList cy yb = []) :
    opendap_fetch_historical_data clim cy yb run order = [] := by
  unfold opendap_fetch_historical_data
  rw [if_pos (isEmpty_of_eq_nil hy)]

lemma opendap_result_fallback {α : Type} (clim : ℤ → α) (cy yb : ℤ)
    (run : ℤ → TaskRun α) (order : List ℤ) (hy : yearsList cy yb ≠ [])
    (hd : order.filterMap (fun y => fetch_year clim y (run y)) = []) :
    opendap_fetch_historical_data clim cy yb run order =
      (yearsList cy yb).map (fun y => ⟨y, clim y⟩) := by
  unfold opendap_fetch_historical_data
  rw [if_neg (not_isEmpty_of_ne_nil hy), if_pos (isEmpty_of_eq_nil hd)]

lemma opendap_result_data {α : Type} (clim : ℤ → α) (cy yb : ℤ)
    (run : ℤ → TaskRun α) (order : List ℤ) (hy : yearsList cy yb ≠ [])
    (hd : order.filterMap (fun y => fetch_year clim y (run y)) ≠ []) :
    opendap_fetch_historical_data clim cy yb run order =
      order.filterMap (fun y => fetch_year clim y (run y)) := by
  unfold opendap_fetch_historical_data
  rw [if_neg (not_isEmpty_of_ne_nil hy), if_neg (not_isEmpty_of_ne_nil hd)]

/-- With a positive `years_back`, the orchestrator's sample is never
empty: every failure path degrades to the climatology fallback. -/
lemma opendap_ne_nil {α : Type} (clim : ℤ → α) (cy yb : ℤ)
    (run : ℤ → TaskRun α) (order : List ℤ) (h : 0 < yb) :
    opendap_fetch_historical_data clim cy yb run order ≠ [] := by
  have hy : yearsList cy yb ≠ [] := fun hc => by
    rw [yearsList_eq_nil] at hc
    omega
  by_cases hd : order.filterMap (fun y => fetch_year clim y (run y)) = []
  · rw [opendap_result_fallback clim cy yb run order hy hd]
    intro hc
    exact hy (List.map_eq_nil_iff.1 hc)
  · rw [opendap_result_data clim cy yb run order hy hd]
    exact hd

lemma mockYear_year (env : MockEnv) (lon seasonal bt tv al : ℚ) (y : ℤ)
    (s : env.State) : (mockYear env lon seasonal bt tv al y s).1.year = y := rfl

lemma mockYears_map_year (env : MockEnv)
    (f : ℤ → env.State → MockRecord × env.State)
    (hf : ∀ y s, (f y s).1.year = y) :
    ∀ (l : List ℤ) (s : env.State),
      (mockYears env f l s).1.map MockRecord.year = l := by
  intro l
  induction l with
  | nil => intro s; rfl
  | cons y ys ih =>
    intro s
    simp only [mockYears, List.map_cons]
    rw [hf, ih]

/-- The mock provider yields exactly one record per requested year, in the
order of the `years` list. -/
lemma mock_fetch_map_year (env : MockEnv) (lat lon : ℚ) (m d yb cy : ℤ)
    (s : env.State) :
    (mock_fetch_historical_data env lat lon m d yb cy s).1.map
      MockRecord.year = yearsList cy yb :=
  mockYears_map_year env _ (fun y s' => mockYear_year env _ _ _ _ _ y s') _ _

/-! ## Claim theorems: the fetch orchestration -/

/-- C1 (as stated) is false: with `years_back = 3` and the remote fetch for
2023 reporting failure (returning `None`), the assembled sample has only 2
records — the failed year is dropped, not backfilled with climatology. -/
theorem c1_counterexample :
    yearsList 2025 3 = [2022, 2023, 2024] ∧
    (opendap_fetch_historical_data (fun _ => (0 : ℚ)) 2025 3
        (fun y => if y = 2023 then .runs .miss .failed
          else .runs .miss (.ok 1))
        [2022, 2023, 2024]).length = 2 ∧
    (2 : ℕ) ≠ (3 : ℤ).toNat := by
  refine ⟨by decide, by decide, by decide⟩

/-- C1 amended: for `years_back > 0` and any completion order of the
requested years, the mock provider returns exactly `years_back` records,
one per year of `[current_year − years_back, current_year)`; the opendap
orchestrator returns at most `years_back` records, each carrying a year in
that interval, and exactly `years_back` records — one per requested year —
whenever no task's remote fetch reports failure by returning no data. -/
theorem c1_amended_sample_size :
    ∀ (env : MockEnv) (lat lon : ℚ) (m d yb cy : ℤ) (s : env.State)
      (clim : ℤ → ℚ) (run : ℤ → TaskRun ℚ) (order : List ℤ),
      0 < yb → order.Perm (yearsList cy yb) →
      ((mock_fetch_historical_data env lat lon m d yb cy s).1.length =
          yb.toNat ∧
        (mock_fetch_historical_data env lat lon m d yb cy s).1.map
          MockRecord.year = yearsList cy yb) ∧
      ((opendap_fetch_historical_data clim cy yb run order).length ≤
          yb.toNat ∧
        (∀ r ∈ opendap_fetch_historical_data clim cy yb run order,
          cy - yb ≤ r.year ∧ r.year < cy) ∧
        ((∀ y ∈ yearsList cy yb, (fetch_year clim y (run y)).isSome) →
          (opendap_fetch_historical_data clim cy yb run order).length =
            yb.toNat ∧
          ∀ y : ℤ, cy - yb ≤ y → y < cy →
            ∃ r ∈ opendap_fetch_historical_data clim cy yb run order,
              r.year = y)) := by
  intro env lat lon m d yb cy s clim run order hyb hperm
  have hmock := mock_fetch_map_year env lat lon m d yb cy s
  have hmlen : (mock_fetch_historical_data env lat lon m d yb cy s).1.length =
      yb.toNat := by
    have h := congrArg List.length hmock
    rwa [List.length_map, yearsList_length] at h
  refine ⟨⟨hmlen, hmock⟩, ?_⟩
  have hyne : yearsList cy yb ≠ [] := fun hc => by
    rw [yearsList_eq_nil] at hc
    omega
  have horder_len : order.length = yb.toNat := by
    rw [hperm.length_eq, yearsList_length]
  by_cases hde : order.filterMap (fun y => fetch_year clim y (run y)) = []
  · have hres := opendap_result_fallback clim cy yb run order hyne hde
    refine ⟨?_, ?_, ?_⟩
    · rw [hres, List.length_map, yearsList_length]
    · intro r hr
      rw [hres] at hr
      obtain ⟨y, hy, rfl⟩ := List.mem_map.1 hr
      exact mem_yearsList.1 hy
    · intro hall
      exfalso
      have hlen : (order.filterMap
          (fun y => fetch_year clim y (run y))).length = order.length :=
        filterMap_length_all_some _ order (fun y hy => hall y (hperm.subset hy))
      rw [hde] at hlen
      simp only [List.length_nil] at hlen
      omega
  · have hres := opendap_result_data clim cy yb run order hyne hde
    refine ⟨?_, ?_, ?_⟩
    · rw [hres, ← horder_len]
      exact List.length_filterMap_le _ _
    · intro r hr
      rw [hres] at hr
      obtain ⟨y, hy, hsome⟩ := List.mem_filterMap.1 hr
      rw [fetch_year_year clim y (run y) r hsome]
      exact mem_yearsList.1 (hperm.subset hy)
    · intro hall
      constructor
      · rw [hres,
          filterMap_length_all_some _ order
            (fun y hy => hall y (hperm.subset hy)),
          horder_len]
      · intro y h1 h2
        have hyy : y ∈ yearsList cy yb := mem_yearsList.2 ⟨h1, h2⟩
        have hy : y ∈ order := hperm.mem_iff.2 hyy
        obtain ⟨r, hr⟩ := Option.isSome_iff_exists.1 (hall y hyy)
        refine ⟨r, ?_, fetch_year_year clim y (run y) r hr⟩
        rw [hres]
        exact List.mem_filterMap.2 ⟨y, hy, hr⟩

/-- Witness for C1 amended, at `years_back = 2, current_year = 2025` with
both remote fetches succeeding. -/
theorem c1_amended_sample_size_witness :
    (mock_fetch_historical_data unitEnv 0 0 7 4 2 2025 ()).1.map
      MockRecord.year = yearsList 2025 2 ∧
    (opendap_fetch_historical_data (fun _ => (0 : ℚ)) 2025 2
      (fun _ => .runs .miss (.ok 1)) [2023, 2024]).length = (2 : ℤ).toNat := by
  have h := c1_amended_sample_size unitEnv 0 0 7 4 2 2025 () (fun _ => (0 : ℚ))
    (fun _ => .runs .miss (.ok 1)) [2023, 2024] (by norm_num) (by decide)
  exact ⟨h.1.2, (h.2.2.2 (by decide)).1⟩

/-- C2 (as stated) is false: when the 2024 task completes before the 2023
task, the assembled sample is `[2024, 2023]` — the orchestrator appends in
completion order and never sorts, so the sample is not ascending by year. -/
theorem c2_counterexample :
    [2024, 2023].Perm (yearsList 2025 2) ∧
    (opendap_fetch_historical_data (fun _ => (0 : ℚ)) 2025 2
        (fun _ => .runs .miss (.ok 1)) [2024, 2023]).map YearRecord.year =
      [2024, 2023] ∧
    ¬List.Chain' (fun a b : ℤ => a < b)
      ((opendap_fetch_historical_data (fun _ => (0 : ℚ)) 2025 2
        (fun _ => .runs .miss (.ok 1)) [2024, 2023]).map YearRecord.year) := by
  have hmap : (opendap_fetch_historical_data (fun _ => (0 : ℚ)) 2025 2
      (fun _ => .runs .miss (.ok 1)) [2024, 2023]).map YearRecord.year =
      [2024, 2023] := by decide
  refine ⟨by decide, hmap, ?_⟩
  rw [hmap]
  intro hch
  rw [List.chain'_cons] at hch
  exact absurd hch.1 (by norm_num)

/-- C2 amended: the mock provider's sample is always strictly ascending by
year; the opendap orchestrator's sample follows task completion order, so
it is strictly ascending whenever tasks complete in ascending year order
(and in the all-fallback path). -/
theorem c2_amended_ordering :
    ∀ (env : MockEnv) (lat lon : ℚ) (m d yb cy : ℤ) (s : env.State)
      (clim : ℤ → ℚ) (run : ℤ → TaskRun ℚ),
      List.Chain' (fun a b : ℤ => a < b)
        ((mock_fetch_historical_data env lat lon m d yb cy s).1.map
          MockRecord.year) ∧
      List.Chain' (fun a b : ℤ => a < b)
        ((opendap_fetch_historical_data clim cy yb run
          (yearsList cy yb)).map YearRecord.year) := by
  intro env lat lon m d yb cy s clim run
  constructor
  · rw [mock_fetch_map_year]
    exact (yearsList_pairwise cy yb).chain'
  · by_cases hy : yearsList cy yb = []
    · rw [opendap_result_empty clim cy yb run _ hy]
      simp
    · by_cases hd : (yearsList cy yb).filterMap
          (fun y => fetch_year clim y (run y)) = []
      · rw [opendap_result_fallback clim cy yb run _ hy hd, List.map_map]
        have he : (YearRecord.year ∘ fun y => (⟨y, clim y⟩ : YearRecord ℚ)) =
            id := rfl
        rw [he, List.map_id]
        exact (yearsList_pairwise cy yb).chain'
      · rw [opendap_result_data clim cy yb run _ hy hd]
        exact ((yearsList_pairwise cy yb).sublist
          (map_year_filterMap_sublist clim run _)).chain'

/-- C8 (as stated) is false: the remote fetch for 2023 fails, yet the
returned sample contains no record for 2023 at all — the failure is
absorbed by dropping the year, not by substituting a climatology estimate
(whose body here would be the recognisable value 37). -/
theorem c8_counterexample :
    yearsList 2025 2 = [2023, 2024] ∧
    (opendap_fetch_historical_data (fun _ => (37 : ℚ)) 2025 2
        (fun y => if y = 2023 then .runs .miss .failed
          else .runs .miss (.ok 5))
        [2023, 2024]).map YearRecord.year = [2024] := by
  refine ⟨by decide, by decide⟩

/-- C8 amended: the pipeline surfaces an error exactly when
`years_back ≤ 0` (the empty-sample guard); a cache read error behaves
exactly like a cache miss; and a year whose task raises is backfilled with
the climatology estimate.  (A remote fetch returning no data drops its
year silently — see the counterexample.) -/
theorem c8_amended_error_policy :
    ∀ (clim : ℤ → ℚ) (cy yb : ℤ) (run : ℤ → TaskRun ℚ) (order : List ℤ)
      (y : ℤ) (rm : RemoteResult ℚ),
      ((∃ e, fetch_result clim cy yb run order = .error e) ↔ yb ≤ 0) ∧
      fetch_year clim y (.runs .readError rm) =
        fetch_year clim y (.runs .miss rm) ∧
      (0 < yb → y ∈ order → run y = .raises →
        (⟨y, clim y⟩ : YearRecord ℚ) ∈
          opendap_fetch_historical_data clim cy yb run order) := by
  intro clim cy yb run order y rm
  have hmem : 0 < yb → y ∈ order → run y = .raises →
      (⟨y, clim y⟩ : YearRecord ℚ) ∈
        opendap_fetch_historical_data clim cy yb run order := by
    intro hyb hy hrun
    have hsome : fetch_year clim y (run y) = some ⟨y, clim y⟩ := by
      rw [hrun]
      rfl
    have hdmem : (⟨y, clim y⟩ : YearRecord ℚ) ∈
        order.filterMap (fun z => fetch_year clim z (run z)) :=
      List.mem_filterMap.2 ⟨y, hy, hsome⟩
    have hyne : yearsList cy yb ≠ [] := fun hc => by
      rw [yearsList_eq_nil] at hc
      omega
    have hdne : order.filterMap (fun z => fetch_year clim z (run z)) ≠ [] :=
      fun hc => by rw [hc] at hdmem; exact (List.not_mem_nil _) hdmem
    rw [opendap_result_data clim cy yb run order hyne hdne]
    exact hdmem
  refine ⟨⟨?_, ?_⟩, by cases rm <;> rfl, hmem⟩
  · rintro ⟨e, he⟩
    by_contra hpos
    push_neg at hpos
    have hne := opendap_ne_nil clim cy yb run order hpos
    unfold fetch_result at he
    rw [if_neg (not_isEmpty_of_ne_nil hne)] at he
    exact Except.noConfusion he
  · intro hyb0
    refine ⟨(), ?_⟩
    have hres := opendap_result_empty clim cy yb run order
      (yearsList_eq_nil.2 hyb0)
    unfold fetch_result
    rw [if_pos (isEmpty_of_eq_nil hres)]

/-- Witness for C8 amended: `years_back = −1` surfaces the empty-sample
error; a task that raises for 2024 yields the climatology record. -/
theorem c8_amended_error_policy_witness :
    (∃ e, fetch_result (fun _ => (0 : ℚ)) 2025 (-1) (fun _ => .raises) [] =
      .error e) ∧
    fetch_year (fun _ => (0 : ℚ)) 7 (.runs .readError .failed) =
      fetch_year (fun _ => (0 : ℚ)) 7 (.runs .miss .failed) ∧
    (⟨2024, 0⟩ : YearRecord ℚ) ∈
      opendap_fetch_historical_data (fun _ => (0 : ℚ)) 2025 1
        (fun _ => .raises) [2024] := by
  have h1 := c8_amended_error_policy (fun _ => (0 : ℚ)) 2025 (-1)
    (fun _ => .raises) [] 7 .failed
  have h2 := c8_amended_error_policy (fun _ => (0 : ℚ)) 2025 1
    (fun _ => .raises) [2024] 2024 .failed
  exact ⟨h1.1.2 (by norm_num), h1.2.1,
    h2.2.2 (by norm_num) (by decide) rfl⟩

/-- C10: `MockProvider.fetch_historical_data` reseeds the global NumPy
generator at entry, so its output is independent of the generator state it
inherits — two calls with identical arguments in the same calendar year
return identical rows; and the seed at `lat = 40.71, lon = −74.01,
month = 7, day = 4` is `int(abs(40.71·1000 − 74.01·100 + 70 + 4)) =
33383`. -/
theorem c10_mock_reseed_determinism :
    (∀ (env : MockEnv) (lat lon : ℚ) (m d yb cy : ℤ)
      (s1 s2 : env.State),
      (mock_fetch_historical_data env lat lon m d yb cy s1).1 =
        (mock_fetch_historical_data env lat lon m d yb cy s2).1) ∧
    seedOf 40.71 (-74.01) 7 4 = 33383 := by
  refine ⟨fun env lat lon m d yb cy s1 s2 => rfl, ?_⟩
  unfold seedOf
  norm_num
  rfl

end SpaceApps
